import Mathlib

/-!
Verification development for the snapquiz quiz platform.

This file gives a shallow embedding of the quiz-attempt lifecycle logic of
the repository: the admission guard (StudentDashboard.handleJoinQuiz and
QuizAccess.handleStartQuiz), attempt initialization (QuizTaking.initializeQuiz),
scoring and submission (QuizTaking.handleSubmitQuiz), the countdown timer
effect, the one-hour results embargo (StudentDashboard.viewResults), the
username validation (UsernameSetup.handleSubmit), and the store-level
uniqueness constraint UNIQUE(quiz_id, student_id) on quiz_attempts.

Modelling conventions:
- timestamps are milliseconds since the epoch, as Nat (Date.getTime values);
- JavaScript floating-point arithmetic on these small integer quantities is
  modelled exactly over the rationals: Math.round(a / b) becomes
  (2 a + b) / (2 b) in Nat (round half up, the behaviour of Math.round on
  non-negative values) and Math.ceil of a positive rational a / b becomes
  (a + b - 1) / b;
- strings are Lean strings; String.prototype.toLowerCase / toUpperCase are
  modelled on the basic-latin range (the only range the repository's data
  uses) and String.prototype.trim strips the ASCII whitespace characters;
- the external store is explicit: row lists for tables, and a lookup
  function for the per-question correct_answer fetch inside the scoring
  loop (None models a failed fetch).
-/

namespace SnapQuiz

/-! ## JavaScript string primitives -/

/-- ASCII whitespace as stripped by String.prototype.trim:
tab, LF, VT, FF, CR and space. -/
def isJsWs (c : Char) : Bool :=
  c.toNat == 9 || c.toNat == 10 || c.toNat == 11 || c.toNat == 12 ||
  c.toNat == 13 || c.toNat == 32

/-- Character lowering as in String.prototype.toLowerCase, basic-latin range. -/
def jsCharToLower (c : Char) : Char :=
  if 65 ≤ c.toNat ∧ c.toNat ≤ 90 then Char.ofNat (c.toNat + 32) else c

/-- Character raising as in String.prototype.toUpperCase, basic-latin range. -/
def jsCharToUpper (c : Char) : Char :=
  if 97 ≤ c.toNat ∧ c.toNat ≤ 122 then Char.ofNat (c.toNat - 32) else c

/-- Strip leading and trailing JavaScript whitespace from a character list. -/
def trimList (l : List Char) : List Char :=
  ((l.dropWhile isJsWs).reverse.dropWhile isJsWs).reverse

/-- Models String.prototype.trim. -/
def jsTrim (s : String) : String := String.mk (trimList s.data)

/-- Models String.prototype.toLowerCase. -/
def jsToLower (s : String) : String := String.mk (s.data.map jsCharToLower)

/-- Models String.prototype.toUpperCase. -/
def jsToUpper (s : String) : String := String.mk (s.data.map jsCharToUpper)

/-- Models Math.round (a / b) for natural a and positive b:
round half up of the exact rational a / b. -/
def roundDiv (a b : Nat) : Nat := (2 * a + b) / (2 * b)

/-- Models Math.ceil (a / b) for natural a and positive b:
ceiling of the exact rational a / b. -/
def ceilDiv (a b : Nat) : Nat := (a + b - 1) / b

/-! ## Data model (tables from the initial migration) -/

/-- A row of the quizzes table, restricted to the columns the modelled control
logic reads. -/
structure Quiz where
  id : Nat
  quiz_code : String
  is_active : Bool
  start_time : Option Nat
  end_time : Option Nat
  duration_minutes : Nat
  created_at : Nat
deriving DecidableEq, Repr

/-- A row of the questions table, restricted to the columns the modelled
control logic reads. -/
structure Question where
  id : Nat
  correct_answer : String
  order_index : Nat
deriving DecidableEq, Repr

/-- A row of the quiz_attempts table. -/
structure Attempt where
  quiz_id : Nat
  student_id : Nat
  started_at : Nat
  total_questions : Nat
  score : Nat
  is_completed : Bool
deriving DecidableEq, Repr

/-- A row of the student_answers table. -/
structure StudentAnswerRow where
  question_id : Nat
  student_answer : String
  is_correct : Bool
deriving DecidableEq, Repr

/-! ## Attempt initialization (QuizTaking.initializeQuiz)

The insert into quiz_attempts sends quiz_id, student_id, total_questions
and started_at; score and is_completed take their column defaults 0 and
false. -/

/-- The quiz_attempts row constructed by initializeQuiz. -/
def initializeAttempt (quizId studentId nowMs : Nat) (questions : List Question) : Attempt :=
  { quiz_id := quizId
    student_id := studentId
    started_at := nowMs
    total_questions := questions.length
    score := 0
    is_completed := false }

/-- The store-level uniqueness constraint UNIQUE(quiz_id, student_id) on
quiz_attempts: an insert whose (quiz_id, student_id) pair is already present
fails with a constraint violation and writes nothing. -/
def insertAttempt (rows : List Attempt) (a : Attempt) : Except String (List Attempt) :=
  if rows.any (fun b => b.quiz_id == a.quiz_id && b.student_id == a.student_id) then
    Except.error "duplicate key value violates unique constraint"
  else
    Except.ok (rows ++ [a])

/-- At most one attempt row per (quiz_id, student_id) pair. -/
def uniquePerPair (rows : List Attempt) : Prop :=
  rows.Pairwise (fun a b => ¬(a.quiz_id = b.quiz_id ∧ a.student_id = b.student_id))

/-! ## Scoring and submission (QuizTaking.handleSubmitQuiz) -/

/-- The correctness comparison of handleSubmitQuiz:
studentAnswer.toLowerCase().trim() === question.correct_answer.toLowerCase().trim(). -/
def answerIsCorrect (studentAnswer correctAnswer : String) : Bool :=
  jsTrim (jsToLower studentAnswer) == jsTrim (jsToLower correctAnswer)

/-- One iteration of the scoring loop over Object.entries(answers): fetch the
question's correct_answer; on success compare and record the patch that sets
the student_answers row's is_correct; on a failed fetch do nothing. -/
def scoreStep (fetchCorrect : Nat → Option String) (acc : Nat × List (Nat × Bool))
    (qa : Nat × String) : Nat × List (Nat × Bool) :=
  match fetchCorrect qa.1 with
  | some correct =>
      let ic := answerIsCorrect qa.2 correct
      ((if ic then acc.1 + 1 else acc.1), acc.2 ++ [(qa.1, ic)])
  | none => acc

/-- Whether the scoring loop judges one recorded answer correct; an answer
whose correct_answer fetch fails is judged incorrect. -/
def judgedCorrect (fetchCorrect : Nat → Option String) (qa : Nat × String) : Bool :=
  match fetchCorrect qa.1 with
  | some correct => answerIsCorrect qa.2 correct
  | none => false

/-- The number of recorded answers the scoring loop judges correct. -/
def correctCount (fetchCorrect : Nat → Option String) (answers : List (Nat × String)) : Nat :=
  (answers.filter (judgedCorrect fetchCorrect)).length

/-- Everything handleSubmitQuiz writes or computes: the student_answers rows
inserted (all with is_correct = false), the is_correct patches applied
afterwards, the raw correct count, the persisted percentage score, the
completion flag and time_taken_minutes written to the attempt. -/
structure SubmitOutcome where
  insertedRows : List StudentAnswerRow
  patches : List (Nat × Bool)
  score : Nat
  finalScore : Nat
  is_completed : Bool
  time_taken_minutes : Nat
deriving DecidableEq, Repr

/-- QuizTaking.handleSubmitQuiz. The elapsed-time computation reads
quiz.created_at (not the attempt's started_at); answers is the in-memory
answer map as an association list keyed by question id; fetchCorrect models
the per-question select of correct_answer (None is a failed fetch, silently
skipped by the loop). -/
def handleSubmitQuiz (quiz : Quiz) (nowMs : Nat) (questions : List Question)
    (answers : List (Nat × String)) (fetchCorrect : Nat → Option String) : SubmitOutcome :=
  let timeTakenMinutes := roundDiv (nowMs - quiz.created_at) 60000
  let insertedRows := answers.map (fun qa =>
    { question_id := qa.1, student_answer := qa.2, is_correct := false : StudentAnswerRow })
  let scored := answers.foldl (scoreStep fetchCorrect) (0, [])
  { insertedRows := insertedRows
    patches := scored.2
    score := scored.1
    finalScore := roundDiv (100 * scored.1) questions.length
    is_completed := true
    time_taken_minutes := timeTakenMinutes }

/-- Effective correctness of the persisted student_answers row for a question:
its patch when the loop produced one, otherwise the inserted false. -/
def effectiveIsCorrect (o : SubmitOutcome) (questionId : Nat) : Bool :=
  match o.patches.find? (fun p => p.1 == questionId) with
  | some p => p.2
  | none => false

/-! ## Admission guard -/

/-- Truthiness-guarded test quiz.start_time and new Date(quiz.start_time) > now. -/
def startsLater (startTime : Option Nat) (nowMs : Nat) : Bool :=
  match startTime with
  | some st => decide (nowMs < st)
  | none => false

/-- Truthiness-guarded test quiz.end_time and new Date(quiz.end_time) < now. -/
def endedBefore (endTime : Option Nat) (nowMs : Nat) : Bool :=
  match endTime with
  | some et => decide (et < nowMs)
  | none => false

/-- Outcome of StudentDashboard.handleJoinQuiz, one constructor per distinct
user-facing toast, plus proceed (navigation into QuizTaking, which performs
Initialize). -/
inductive JoinOutcome where
  | invalidCode
  | quizNotFound
  | quizNotAvailable
  | quizExpired
  | alreadyAttempted
  | proceed (quizId : Nat)
deriving DecidableEq, Repr

/-- StudentDashboard.handleJoinQuiz: empty-code check, then the quiz lookup
filtered by quiz_code = input.toUpperCase() and is_active = true, then the
time-window checks, then the existing-attempt check, then navigation. -/
def handleJoinQuiz (quizCodeInput : String) (quizzes : List Quiz)
    (attempts : List Attempt) (studentId : Nat) (nowMs : Nat) : JoinOutcome :=
  if jsTrim quizCodeInput = "" then JoinOutcome.invalidCode
  else
    match quizzes.find? (fun q => q.quiz_code == jsToUpper quizCodeInput && q.is_active) with
    | none => JoinOutcome.quizNotFound
    | some quiz =>
        if startsLater quiz.start_time nowMs then JoinOutcome.quizNotAvailable
        else if endedBefore quiz.end_time nowMs then JoinOutcome.quizExpired
        else if attempts.any (fun a => a.quiz_id == quiz.id && a.student_id == studentId) then
          JoinOutcome.alreadyAttempted
        else JoinOutcome.proceed quiz.id

/-- Outcome of QuizAccess.handleStartQuiz, one constructor per distinct
user-facing toast, plus proceed. -/
inductive StartOutcome where
  | quizNotActive
  | quizNotAvailable
  | quizExpired
  | alreadyAttempted
  | proceed
deriving DecidableEq, Repr

/-- QuizAccess.handleStartQuiz: the quiz record is already loaded, so the
inactive case gets its own check and toast here, before the time-window and
existing-attempt checks. -/
def handleStartQuiz (quiz : Quiz) (existingAttempt : Bool) (nowMs : Nat) : StartOutcome :=
  if !quiz.is_active then StartOutcome.quizNotActive
  else if startsLater quiz.start_time nowMs then StartOutcome.quizNotAvailable
  else if endedBefore quiz.end_time nowMs then StartOutcome.quizExpired
  else if existingAttempt then StartOutcome.alreadyAttempted
  else StartOutcome.proceed

/-! ## Results embargo (StudentDashboard.viewResults) -/

/-- Result of the embargo gate: available, or embargoed with the remaining
minutes shown to the student. -/
inductive ResultAvailability where
  | available
  | embargoed (remainingMinutes : Nat)
deriving DecidableEq, Repr

/-- StudentDashboard.viewResults: hoursPassed = (now - completedAt) / 3600000;
embargoed while hoursPassed < 1 with Math.ceil (60 - hoursPassed * 60)
remaining minutes, available otherwise. -/
def viewResults (completedAtMs nowMs : Nat) : ResultAvailability :=
  let elapsedMs := nowMs - completedAtMs
  if elapsedMs < 3600000 then
    ResultAvailability.embargoed (ceilDiv (3600000 - elapsedMs) 60000)
  else ResultAvailability.available

/-! ## Username validation (UsernameSetup.handleSubmit) -/

/-- Character class of the regex in UsernameSetup: [a-zA-Z0-9_-]. -/
def isUsernameChar (c : Char) : Bool :=
  (65 ≤ c.toNat && c.toNat ≤ 90) || (97 ≤ c.toNat && c.toNat ≤ 122) ||
  (48 ≤ c.toNat && c.toNat ≤ 57) || c.toNat == 95 || c.toNat == 45

/-- Whole-string match of the anchored regex on usernames: at least one
character, all from the class. -/
def usernameRegexTest (s : String) : Bool :=
  !s.data.isEmpty && s.data.all isUsernameChar

/-- Outcome of the username validation in UsernameSetup.handleSubmit, one
constructor per distinct toast plus acceptance. -/
inductive UsernameCheck where
  | invalidEmpty
  | tooShort
  | tooLong
  | invalidChars
  | accepted
deriving DecidableEq, Repr

/-- UsernameSetup.handleSubmit validation sequence: falsy trimmed input, then
length below 3, then length above 20, then the regex test, then acceptance. -/
def validateUsername (username : String) : UsernameCheck :=
  if jsTrim username = "" then UsernameCheck.invalidEmpty
  else if username.length < 3 then UsernameCheck.tooShort
  else if username.length > 20 then UsernameCheck.tooLong
  else if !usernameRegexTest username then UsernameCheck.invalidChars
  else UsernameCheck.accepted

/-! ## Countdown timer and the in-flight submission guard

The timer useEffect decrements timeLeft once per second while positive and
invokes handleSubmitQuiz when it reaches zero; handleSubmitQuiz opens with
if (submitting) return and sets the flag before any write; on success the
attempt is marked completed and the component unmounts (onCompleted), on
failure the flag is cleared and the attempt stays incomplete. -/

/-- The state the timer and submission guard operate on. submitWrites counts
completed submission writes (the quiz_attempts update). -/
structure TimerState where
  timeLeft : Nat
  submitting : Bool
  completed : Bool
  submitWrites : Nat
deriving DecidableEq, Repr

/-- State after initializeQuiz: the countdown holds duration_minutes * 60
seconds, nothing submitted. -/
def initTimerState (durationMinutes : Nat) : TimerState :=
  { timeLeft := durationMinutes * 60
    submitting := false
    completed := false
    submitWrites := 0 }

/-- Entry of handleSubmitQuiz: no-op after completion (the component is
unmounted), no-op while a submission is in flight (the guard
if (submitting) return), otherwise raises the in-flight flag. -/
def invokeSubmit (s : TimerState) : TimerState :=
  if s.completed then s
  else if s.submitting then s
  else { s with submitting := true }

/-- Successful completion of an in-flight submission: the quiz_attempts
update is written, the attempt becomes completed, the flag clears. -/
def finishSubmit (s : TimerState) : TimerState :=
  if s.submitting && !s.completed then
    { s with submitting := false, completed := true, submitWrites := s.submitWrites + 1 }
  else s

/-- Failed in-flight submission: the finally block clears the flag, the
attempt stays incomplete, nothing is counted as written. -/
def failSubmit (s : TimerState) : TimerState :=
  if s.submitting then { s with submitting := false } else s

/-- One run of the timer useEffect: after completion the component is gone;
with time on the clock, decrement; at zero, invoke the submission. -/
def tickEffect (s : TimerState) : TimerState :=
  if s.completed then s
  else if 0 < s.timeLeft then { s with timeLeft := s.timeLeft - 1 }
  else invokeSubmit s

/-- Events of the lifecycle: a timer tick, a manual click of the submit
button, and the completion or failure of the in-flight store round trip. -/
inductive QuizEv where
  | tick
  | manualSubmit
  | submitOk
  | submitErr
deriving DecidableEq, Repr

/-- Step of the event system. -/
def stepEv (s : TimerState) : QuizEv → TimerState
  | QuizEv.tick => tickEffect s
  | QuizEv.manualSubmit => invokeSubmit s
  | QuizEv.submitOk => finishSubmit s
  | QuizEv.submitErr => failSubmit s

/-- Run a sequence of events from a state. -/
def runEvents (s : TimerState) (evs : List QuizEv) : TimerState :=
  evs.foldl stepEv s

/-- Invariant tying the write count to the lifecycle flags. -/
def timerInv (s : TimerState) : Prop :=
  s.submitWrites ≤ 1 ∧ (s.completed = true ↔ s.submitWrites = 1) ∧
  (s.submitting = true → s.completed = false)

/-! ## Concrete scenario data (from the specified end-to-end scenario) -/

/-- Scenario quiz: duration_minutes 30, active, no time window, created at 0 ms. -/
def scenarioQuiz : Quiz :=
  { id := 1
    quiz_code := "ABC123"
    is_active := true
    start_time := none
    end_time := none
    duration_minutes := 30
    created_at := 0 }

/-- Scenario questions with correct answers A, True and 42. -/
def scenarioQuestions : List Question :=
  [{ id := 11, correct_answer := "A", order_index := 0 },
   { id := 12, correct_answer := "True", order_index := 1 },
   { id := 13, correct_answer := "42", order_index := 2 }]

/-- Scenario student answers a, True and 43. -/
def scenarioAnswers : List (Nat × String) := [(11, "a"), (12, "True"), (13, "43")]

/-- Store lookup of correct_answer over the scenario questions. -/
def scenarioFetch : Nat → Option String := fun questionId =>
  (scenarioQuestions.find? (fun q => q.id == questionId)).map Question.correct_answer

/-! ## Helper lemmas -/

theorem toNat_ofNat_of_valid (n : Nat) (hv : n.isValidChar) : (Char.ofNat n).toNat = n := by
  rw [Char.ofNat, dif_pos hv]
  rfl

theorem isJsWs_jsCharToLower (c : Char) : isJsWs (jsCharToLower c) = isJsWs c := by
  unfold jsCharToLower
  split
  · rename_i h
    have hv : (c.toNat + 32).isValidChar := Or.inl (by omega)
    have ht : (Char.ofNat (c.toNat + 32)).toNat = c.toNat + 32 :=
      toNat_ofNat_of_valid _ hv
    have h1 : isJsWs (Char.ofNat (c.toNat + 32)) = false := by
      simp [isJsWs, ht]
      omega
    have h2 : isJsWs c = false := by
      simp [isJsWs]
      omega
    rw [h1, h2]
  · rfl

theorem trimList_map_lower (l : List Char) :
    trimList (l.map jsCharToLower) = (trimList l).map jsCharToLower := by
  have hp : (isJsWs ∘ jsCharToLower) = isJsWs := funext isJsWs_jsCharToLower
  unfold trimList
  rw [List.dropWhile_map, hp, ← List.map_reverse, List.dropWhile_map, hp, ← List.map_reverse]

theorem jsTrim_jsToLower (s : String) : jsTrim (jsToLower s) = jsToLower (jsTrim s) := by
  show String.mk (trimList (s.data.map jsCharToLower))
      = String.mk ((trimList s.data).map jsCharToLower)
  rw [trimList_map_lower]

theorem dropWhile_eq_self_of_all_false (p : Char → Bool) (l : List Char)
    (h : ∀ c ∈ l, p c = false) : l.dropWhile p = l := by
  cases l with
  | nil => rfl
  | cons a l => simp [List.dropWhile_cons, h a (by simp)]

theorem trimList_eq_self (l : List Char) (h : ∀ c ∈ l, isJsWs c = false) :
    trimList l = l := by
  unfold trimList
  rw [dropWhile_eq_self_of_all_false _ _ h,
    dropWhile_eq_self_of_all_false _ _ (fun c hc => h c (List.mem_reverse.mp hc)),
    List.reverse_reverse]

theorem isUsernameChar_not_ws (c : Char) (h : isUsernameChar c = true) :
    isJsWs c = false := by
  simp [isUsernameChar] at h
  simp [isJsWs]
  omega

theorem foldl_scoreStep_fst (fetchCorrect : Nat → Option String) :
    ∀ (answers : List (Nat × String)) (n : Nat) (ps : List (Nat × Bool)),
      (answers.foldl (scoreStep fetchCorrect) (n, ps)).1
        = n + correctCount fetchCorrect answers := by
  intro answers
  induction answers with
  | nil => intro n ps; simp [correctCount]
  | cons qa rest ih =>
      intro n ps
      simp only [List.foldl_cons]
      cases hf : fetchCorrect qa.1 with
      | none =>
          have hj : judgedCorrect fetchCorrect qa = false := by
            simp [judgedCorrect, hf]
          have hstep : scoreStep fetchCorrect (n, ps) qa = (n, ps) := by
            simp [scoreStep, hf]
          rw [hstep, ih]
          simp only [correctCount, List.filter_cons, hj]
          simp
      | some correct =>
          have hstep : scoreStep fetchCorrect (n, ps) qa
              = ((if answerIsCorrect qa.2 correct then n + 1 else n),
                 ps ++ [(qa.1, answerIsCorrect qa.2 correct)]) := by
            simp [scoreStep, hf]
          have hj : judgedCorrect fetchCorrect qa = answerIsCorrect qa.2 correct := by
            simp [judgedCorrect, hf]
          rw [hstep, ih]
          simp only [correctCount, List.filter_cons, hj]
          by_cases hic : answerIsCorrect qa.2 correct = true
          · simp [hic]
            omega
          · simp [Bool.eq_false_iff.mpr hic, hic]

theorem foldl_scoreStep_patches (fetchCorrect : Nat → Option String) (q : Nat)
    (hq : fetchCorrect q = none) :
    ∀ (answers : List (Nat × String)) (n : Nat) (ps : List (Nat × Bool)),
      (∀ p ∈ ps, p.1 ≠ q) →
      ∀ p ∈ (answers.foldl (scoreStep fetchCorrect) (n, ps)).2, p.1 ≠ q := by
  intro answers
  induction answers with
  | nil => intro n ps hps; simpa using hps
  | cons qa rest ih =>
      intro n ps hps
      simp only [List.foldl_cons]
      cases hf : fetchCorrect qa.1 with
      | none =>
          have hstep : scoreStep fetchCorrect (n, ps) qa = (n, ps) := by
            simp [scoreStep, hf]
          rw [hstep]
          exact ih n ps hps
      | some correct =>
          have hstep : scoreStep fetchCorrect (n, ps) qa
              = ((if answerIsCorrect qa.2 correct then n + 1 else n),
                 ps ++ [(qa.1, answerIsCorrect qa.2 correct)]) := by
            simp [scoreStep, hf]
          rw [hstep]
          apply ih
          intro p hp
          rcases List.mem_append.mp hp with hl | hr
          · exact hps p hl
          · have : p = (qa.1, answerIsCorrect qa.2 correct) := by simpa using hr
            subst this
            intro hcontra
            rw [show (qa.1, answerIsCorrect qa.2 correct).1 = qa.1 from rfl] at hcontra
            rw [hcontra, hq] at hf
            exact Option.noConfusion hf

theorem correctCount_filter_ne (fetchCorrect : Nat → Option String) (q : Nat)
    (hq : fetchCorrect q = none) :
    ∀ answers : List (Nat × String),
      correctCount fetchCorrect (answers.filter (fun qa => !(qa.1 == q)))
        = correctCount fetchCorrect answers := by
  intro answers
  induction answers with
  | nil => rfl
  | cons qa rest ih =>
      by_cases h : qa.1 = q
      · have hj : judgedCorrect fetchCorrect qa = false := by
          simp [judgedCorrect, h, hq]
        simp [correctCount, List.filter_cons, h, hj] at ih ⊢
        exact ih
      · have hne : (!(qa.1 == q)) = true := by simp [h]
        simp only [correctCount, List.filter_cons, hne, if_true]
        by_cases hj : judgedCorrect fetchCorrect qa = true
        · simp [correctCount, List.filter_cons, hj] at ih ⊢
          exact ih
        · simp [correctCount, List.filter_cons, Bool.eq_false_iff.mpr hj] at ih ⊢
          exact ih

theorem correctCount_le_length (fetchCorrect : Nat → Option String)
    (answers : List (Nat × String)) :
    correctCount fetchCorrect answers ≤ answers.length :=
  List.length_filter_le _ _

theorem roundDiv_zero_left (t : Nat) (ht : 0 < t) : roundDiv 0 t = 0 := by
  unfold roundDiv
  apply Nat.div_eq_of_lt
  omega

theorem roundDiv_hundred_le (c t : Nat) (hc : c ≤ t) (ht : 0 < t) :
    roundDiv (100 * c) t ≤ 100 := by
  unfold roundDiv
  have h : 2 * (100 * c) + t < 101 * (2 * t) := by omega
  have h2 : (2 * (100 * c) + t) / (2 * t) < 101 :=
    (Nat.div_lt_iff_lt_mul (by omega)).mpr h
  omega

theorem timerInv_stepEv (s : TimerState) (e : QuizEv) (h : timerInv s) :
    timerInv (stepEv s e) := by
  obtain ⟨h1, h2, h3⟩ := h
  cases e with
  | tick =>
      simp only [stepEv, tickEffect, invokeSubmit]
      split_ifs with hc ht hs
      · exact ⟨h1, h2, h3⟩
      · exact ⟨h1, h2, h3⟩
      · exact ⟨h1, h2, h3⟩
      · refine ⟨h1, h2, fun _ => ?_⟩
        simpa using hc
  | manualSubmit =>
      simp only [stepEv, invokeSubmit]
      split_ifs with hc hs
      · exact ⟨h1, h2, h3⟩
      · exact ⟨h1, h2, h3⟩
      · refine ⟨h1, h2, fun _ => ?_⟩
        simpa using hc
  | submitOk =>
      simp only [stepEv, finishSubmit]
      split_ifs with hflag
      · simp only [Bool.and_eq_true, Bool.not_eq_true'] at hflag
        obtain ⟨hsub, hcomp⟩ := hflag
        have hw : s.submitWrites = 0 := by
          have : ¬s.submitWrites = 1 := fun hcontra => by
            have := h2.mpr hcontra
            rw [hcomp] at this
            exact Bool.noConfusion this
          omega
        refine ⟨by simp [hw], by simp [hw], fun hcontra => ?_⟩
        simp at hcontra
      · exact ⟨h1, h2, h3⟩
  | submitErr =>
      simp only [stepEv, failSubmit]
      split_ifs with hflag
      · refine ⟨h1, h2, fun hcontra => ?_⟩
        simp at hcontra
      · exact ⟨h1, h2, h3⟩

theorem timerInv_runEvents (evs : List QuizEv) :
    ∀ s : TimerState, timerInv s → timerInv (runEvents s evs) := by
  induction evs with
  | nil => intro s h; simpa [runEvents] using h
  | cons e rest ih =>
      intro s h
      have := ih (stepEv s e) (timerInv_stepEv s e h)
      simpa [runEvents] using this

theorem timerInv_init (durationMinutes : Nat) : timerInv (initTimerState durationMinutes) := by
  refine ⟨by simp [initTimerState], ?_, ?_⟩ <;> simp [initTimerState]

/-! ## Claim theorems -/

/-- C1: for every completed attempt the persisted score is an integer in
[0, 100] equal to round(100 * correct / total), where correct is the number
of recorded answers the scoring loop judges correct and total the number of
questions in the quiz; roundDiv is round half up of the exact rational,
the behaviour of Math.round on these non-negative values. The in-memory
answer map has one entry per touched question, so its keys are distinct and
drawn from the quiz's question ids. -/
theorem score_formula_and_bounds
    (quiz : Quiz) (nowMs : Nat) (questions : List Question)
    (answers : List (Nat × String)) (fetchCorrect : Nat → Option String)
    (hq : 0 < questions.length)
    (hnodup : (answers.map Prod.fst).Nodup)
    (hsub : ∀ q ∈ answers.map Prod.fst, q ∈ questions.map Question.id) :
    (handleSubmitQuiz quiz nowMs questions answers fetchCorrect).finalScore
        = roundDiv (100 * correctCount fetchCorrect answers) questions.length
    ∧ (handleSubmitQuiz quiz nowMs questions answers fetchCorrect).finalScore ≤ 100
    ∧ (handleSubmitQuiz quiz nowMs questions answers fetchCorrect).is_completed = true := by
  have hscore : (answers.foldl (scoreStep fetchCorrect) (0, ([] : List (Nat × Bool)))).1
      = correctCount fetchCorrect answers := by
    simpa using foldl_scoreStep_fst fetchCorrect answers 0 []
  have hfs : (handleSubmitQuiz quiz nowMs questions answers fetchCorrect).finalScore
      = roundDiv (100 * (answers.foldl (scoreStep fetchCorrect) (0, [])).1)
          questions.length := rfl
  have hcc : correctCount fetchCorrect answers ≤ questions.length := by
    have hlen : (answers.map Prod.fst).length ≤ (questions.map Question.id).length :=
      (List.subperm_of_subset hnodup (fun a ha => hsub a ha)).length_le
    have hfilter := correctCount_le_length fetchCorrect answers
    simp only [List.length_map] at hlen
    omega
  refine ⟨?_, ?_, rfl⟩
  · rw [hfs, hscore]
  · rw [hfs, hscore]
    exact roundDiv_hundred_le _ _ hcc hq

/-- Witness for C1 at the specified scenario: three questions with correct
answers A, True, 42 against student answers a, True, 43 score 67. -/
theorem score_formula_and_bounds_witness :
    (handleSubmitQuiz scenarioQuiz 0 scenarioQuestions scenarioAnswers scenarioFetch).finalScore
        = 67
    ∧ (handleSubmitQuiz scenarioQuiz 0 scenarioQuestions scenarioAnswers
        scenarioFetch).is_completed = true := by
  have h := score_formula_and_bounds scenarioQuiz 0 scenarioQuestions scenarioAnswers
    scenarioFetch (by decide) (by decide) (by decide)
  exact ⟨h.1.trans (by decide), h.2.2⟩

/-- C2: at most one attempt row per (quiz_id, student_id). The join guard
answers a second join for a pair that already has an attempt with the
already-attempted outcome and never proceeds to Initialize, and the store
constraint UNIQUE(quiz_id, student_id) rejects a duplicate insert while a
successful insert preserves per-pair uniqueness. -/
theorem attempt_uniqueness_guard :
    (∀ (code : String) (quizzes : List Quiz) (attempts : List Attempt)
       (studentId nowMs : Nat) (quiz : Quiz),
       jsTrim code ≠ "" →
       quizzes.find? (fun qz => qz.quiz_code == jsToUpper code && qz.is_active) = some quiz →
       startsLater quiz.start_time nowMs = false →
       endedBefore quiz.end_time nowMs = false →
       (∃ a ∈ attempts, a.quiz_id = quiz.id ∧ a.student_id = studentId) →
       handleJoinQuiz code quizzes attempts studentId nowMs = JoinOutcome.alreadyAttempted
       ∧ ∀ qid, handleJoinQuiz code quizzes attempts studentId nowMs ≠ JoinOutcome.proceed qid)
    ∧ (∀ (rows : List Attempt) (a : Attempt),
        ((∃ b ∈ rows, b.quiz_id = a.quiz_id ∧ b.student_id = a.student_id) →
          insertAttempt rows a
            = Except.error "duplicate key value violates unique constraint")
        ∧ (uniquePerPair rows → ∀ rows2, insertAttempt rows a = Except.ok rows2 →
            uniquePerPair rows2)) := by
  constructor
  · intro code quizzes attempts studentId nowMs quiz hcode hfind hst hend hex
    have hany : attempts.any (fun a => a.quiz_id == quiz.id && a.student_id == studentId)
        = true := by
      rcases hex with ⟨a, ha, hq1, hq2⟩
      exact List.any_eq_true.mpr ⟨a, ha, by simp [hq1, hq2]⟩
    have hj : handleJoinQuiz code quizzes attempts studentId nowMs
        = JoinOutcome.alreadyAttempted := by
      unfold handleJoinQuiz
      rw [if_neg hcode, hfind]
      simp [hst, hend, hany]
    refine ⟨hj, fun qid hcontra => ?_⟩
    rw [hj] at hcontra
    exact JoinOutcome.noConfusion hcontra
  · intro rows a
    constructor
    · intro hex
      unfold insertAttempt
      rw [if_pos]
      exact List.any_eq_true.mpr
        (by rcases hex with ⟨b, hb, hb1, hb2⟩; exact ⟨b, hb, by simp [hb1, hb2]⟩)
    · intro hu rows2 hok
      unfold insertAttempt at hok
      by_cases hany : rows.any
          (fun b => b.quiz_id == a.quiz_id && b.student_id == a.student_id) = true
      · rw [if_pos hany] at hok
        exact Except.noConfusion hok
      · rw [if_neg hany] at hok
        have hall : ∀ b ∈ rows, ¬(b.quiz_id = a.quiz_id ∧ b.student_id = a.student_id) := by
          intro b hb hcontra
          exact hany (List.any_eq_true.mpr ⟨b, hb, by simp [hcontra.1, hcontra.2]⟩)
        cases hok
        unfold uniquePerPair
        rw [List.pairwise_append]
        refine ⟨hu, List.pairwise_singleton _ _, ?_⟩
        intro x hx y hy
        have hya : y = a := by simpa using hy
        subst hya
        exact hall x hx

/-- Witness for C2: the scenario student already holds an attempt on the
scenario quiz; a second join is answered already-attempted, and the direct
duplicate insert fails on the uniqueness constraint. -/
theorem attempt_uniqueness_guard_witness :
    handleJoinQuiz "ABC123" [scenarioQuiz] [initializeAttempt 1 7 0 scenarioQuestions] 7 0
        = JoinOutcome.alreadyAttempted
    ∧ insertAttempt [initializeAttempt 1 7 0 scenarioQuestions]
        (initializeAttempt 1 7 3600000 scenarioQuestions)
        = Except.error "duplicate key value violates unique constraint" := by
  constructor
  · exact (attempt_uniqueness_guard.1 "ABC123" [scenarioQuiz]
      [initializeAttempt 1 7 0 scenarioQuestions] 7 0 scenarioQuiz
      (by decide) (by decide) (by decide) (by decide)
      ⟨initializeAttempt 1 7 0 scenarioQuestions, by simp, by decide, by decide⟩).1
  · exact (attempt_uniqueness_guard.2 [initializeAttempt 1 7 0 scenarioQuestions]
      (initializeAttempt 1 7 3600000 scenarioQuestions)).1
      ⟨initializeAttempt 1 7 0 scenarioQuestions, by simp, by decide, by decide⟩

/-- C3 (refuted by the code): handleSubmitQuiz derives time_taken_minutes
from quiz.created_at, not from the attempt's started_at. For the scenario
quiz created at 0 ms, an attempt started at 6000000 ms (100 minutes after
quiz creation) and submitted at 6600000 ms persists 110 minutes, while the
elapsed wall-clock minutes since started_at round to 10. -/
theorem time_taken_uses_quiz_created_at :
    (handleSubmitQuiz scenarioQuiz 6600000 scenarioQuestions [] scenarioFetch).time_taken_minutes
        = 110
    ∧ roundDiv (6600000 - (initializeAttempt 1 7 6000000 scenarioQuestions).started_at) 60000
        = 10
    ∧ (110 : Nat) ≠ 10 :=
  ⟨by decide, by decide, by decide⟩

/-- C4: viewResults embargoes a completed attempt exactly while strictly
less than 60 minutes (3600000 ms) have elapsed since completed_at, reporting
the ceiling of the remaining minutes, and is available at exactly 60 minutes
and beyond; at 59 minutes 59 seconds it is embargoed with 1 minute
remaining. -/
theorem results_embargo_spec :
    (∀ completedAtMs nowMs : Nat,
        (nowMs - completedAtMs < 3600000 →
          viewResults completedAtMs nowMs
            = ResultAvailability.embargoed
                (ceilDiv (3600000 - (nowMs - completedAtMs)) 60000))
        ∧ (3600000 ≤ nowMs - completedAtMs →
            viewResults completedAtMs nowMs = ResultAvailability.available))
    ∧ viewResults 0 3599000 = ResultAvailability.embargoed 1
    ∧ viewResults 0 3600000 = ResultAvailability.available := by
  refine ⟨fun c n => ⟨fun h => ?_, fun h => ?_⟩, by decide, by decide⟩
  · simp [viewResults, h]
  · simp [viewResults, Nat.not_lt.mpr h]

/-- Witness for C4: thirty minutes after completion the results are
embargoed with 30 minutes remaining; two hours after completion they are
available. -/
theorem results_embargo_spec_witness :
    viewResults 1000 1801000 = ResultAvailability.embargoed 30
    ∧ viewResults 0 7200000 = ResultAvailability.available := by
  constructor
  · exact ((results_embargo_spec.1 1000 1801000).1 (by decide)).trans (by decide)
  · exact (results_embargo_spec.1 0 7200000).2 (by decide)

/-- C5 (counterexample): in the dashboard join path the quiz lookup filters
on is_active = true, so an inactive quiz produces the same quizNotFound
outcome (the toast titled Quiz Not Found) as a code matching no quiz at all;
the claimed distinct not-available reason for inactive quizzes does not hold
for join requests. -/
theorem inactive_join_same_as_not_found :
    handleJoinQuiz "QUIZAA"
        [{ id := 5, quiz_code := "QUIZAA", is_active := false, start_time := none,
           end_time := none, duration_minutes := 30, created_at := 0 }]
        [] 7 0
      = JoinOutcome.quizNotFound
    ∧ handleJoinQuiz "NOSUCH" [] [] 7 0 = JoinOutcome.quizNotFound :=
  ⟨by decide, by decide⟩

/-- C5 (amended): in the QuizAccess start path the four rejections are
distinct outcomes matching their conditions, each checked before Initialize;
in the dashboard join path the before-window, after-window and
already-attempted rejections are likewise distinct outcomes matching their
conditions (and only the passing case proceeds to Initialize), but a code
whose every quiz match is inactive (in particular an existing inactive
quiz) is reported quizNotFound, identically to an unknown code. -/
theorem admission_guard_reasons :
    (∀ (quiz : Quiz) (existingAttempt : Bool) (nowMs : Nat),
        (quiz.is_active = false →
          handleStartQuiz quiz existingAttempt nowMs = StartOutcome.quizNotActive)
      ∧ (quiz.is_active = true → startsLater quiz.start_time nowMs = true →
          handleStartQuiz quiz existingAttempt nowMs = StartOutcome.quizNotAvailable)
      ∧ (quiz.is_active = true → startsLater quiz.start_time nowMs = false →
          endedBefore quiz.end_time nowMs = true →
          handleStartQuiz quiz existingAttempt nowMs = StartOutcome.quizExpired)
      ∧ (quiz.is_active = true → startsLater quiz.start_time nowMs = false →
          endedBefore quiz.end_time nowMs = false → existingAttempt = true →
          handleStartQuiz quiz existingAttempt nowMs = StartOutcome.alreadyAttempted)
      ∧ (quiz.is_active = true → startsLater quiz.start_time nowMs = false →
          endedBefore quiz.end_time nowMs = false → existingAttempt = false →
          handleStartQuiz quiz existingAttempt nowMs = StartOutcome.proceed))
    ∧ (∀ (code : String) (quizzes : List Quiz) (attempts : List Attempt)
         (studentId nowMs : Nat) (quiz : Quiz),
        jsTrim code ≠ "" →
        quizzes.find? (fun qz => qz.quiz_code == jsToUpper code && qz.is_active)
          = some quiz →
        (startsLater quiz.start_time nowMs = true →
          handleJoinQuiz code quizzes attempts studentId nowMs
            = JoinOutcome.quizNotAvailable)
        ∧ (startsLater quiz.start_time nowMs = false →
            endedBefore quiz.end_time nowMs = true →
            handleJoinQuiz code quizzes attempts studentId nowMs
              = JoinOutcome.quizExpired)
        ∧ (startsLater quiz.start_time nowMs = false →
            endedBefore quiz.end_time nowMs = false →
            attempts.any (fun a => a.quiz_id == quiz.id && a.student_id == studentId)
              = true →
            handleJoinQuiz code quizzes attempts studentId nowMs
              = JoinOutcome.alreadyAttempted)
        ∧ (startsLater quiz.start_time nowMs = false →
            endedBefore quiz.end_time nowMs = false →
            attempts.any (fun a => a.quiz_id == quiz.id && a.student_id == studentId)
              = false →
            handleJoinQuiz code quizzes attempts studentId nowMs
              = JoinOutcome.proceed quiz.id))
    ∧ (∀ (code : String) (quizzes : List Quiz) (attempts : List Attempt)
         (studentId nowMs : Nat),
        jsTrim code ≠ "" →
        (∀ qz ∈ quizzes, qz.quiz_code = jsToUpper code → qz.is_active = false) →
        handleJoinQuiz code quizzes attempts studentId nowMs = JoinOutcome.quizNotFound) := by
  refine ⟨?_, ?_, ?_⟩
  · intro quiz existingAttempt nowMs
    refine ⟨fun h1 => ?_, fun h1 h2 => ?_, fun h1 h2 h3 => ?_,
      fun h1 h2 h3 h4 => ?_, fun h1 h2 h3 h4 => ?_⟩
    · simp [handleStartQuiz, h1]
    · simp [handleStartQuiz, h1, h2]
    · simp [handleStartQuiz, h1, h2, h3]
    · simp [handleStartQuiz, h1, h2, h3, h4]
    · simp [handleStartQuiz, h1, h2, h3, h4]
  · intro code quizzes attempts studentId nowMs quiz hcode hfind
    refine ⟨fun h1 => ?_, fun h1 h2 => ?_, fun h1 h2 h3 => ?_, fun h1 h2 h3 => ?_⟩
    · unfold handleJoinQuiz
      rw [if_neg hcode, hfind]
      simp [h1]
    · unfold handleJoinQuiz
      rw [if_neg hcode, hfind]
      simp [h1, h2]
    · unfold handleJoinQuiz
      rw [if_neg hcode, hfind]
      simp [h1, h2, h3]
    · unfold handleJoinQuiz
      rw [if_neg hcode, hfind]
      simp [h1, h2, h3]
  · intro code quizzes attempts studentId nowMs hcode hall
    have hfind : quizzes.find?
        (fun qz => qz.quiz_code == jsToUpper code && qz.is_active) = none := by
      apply List.find?_eq_none.mpr
      intro qz hqz hp
      simp only [Bool.and_eq_true, beq_iff_eq] at hp
      have := hall qz hqz hp.1
      rw [this] at hp
      exact Bool.noConfusion hp.2
    unfold handleJoinQuiz
    rw [if_neg hcode, hfind]

/-- Witness for C5 (amended): an inactive quiz on the start path gets the
distinct quizNotActive outcome and an attempted quiz within its window gets
alreadyAttempted; on the join path a not-yet-open quiz gets
quizNotAvailable, an ended quiz gets quizExpired, an attempted quiz gets
alreadyAttempted, a joinable quiz proceeds, and an inactive quiz gets
quizNotFound. -/
theorem admission_guard_reasons_witness :
    handleStartQuiz
        { id := 5, quiz_code := "QUIZAA", is_active := false, start_time := none,
          end_time := none, duration_minutes := 30, created_at := 0 } false 0
      = StartOutcome.quizNotActive
    ∧ handleStartQuiz scenarioQuiz true 0 = StartOutcome.alreadyAttempted
    ∧ handleJoinQuiz "FUTURE"
        [{ id := 6, quiz_code := "FUTURE", is_active := true, start_time := some 5000,
           end_time := none, duration_minutes := 30, created_at := 0 }] [] 7 0
      = JoinOutcome.quizNotAvailable
    ∧ handleJoinQuiz "CLOSED"
        [{ id := 8, quiz_code := "CLOSED", is_active := true, start_time := none,
           end_time := some 1000, duration_minutes := 30, created_at := 0 }] [] 7 2000
      = JoinOutcome.quizExpired
    ∧ handleJoinQuiz "ABC123" [scenarioQuiz] [initializeAttempt 1 9 0 scenarioQuestions] 9 0
      = JoinOutcome.alreadyAttempted
    ∧ handleJoinQuiz "ABC123" [scenarioQuiz] [] 9 0 = JoinOutcome.proceed 1
    ∧ handleJoinQuiz "QUIZAA"
        [{ id := 5, quiz_code := "QUIZAA", is_active := false, start_time := none,
           end_time := none, duration_minutes := 30, created_at := 0 }] [] 7 0
      = JoinOutcome.quizNotFound := by
  refine ⟨?_, ?_, ?_, ?_, ?_, ?_, ?_⟩
  · exact (admission_guard_reasons.1 _ false 0).1 (by decide)
  · exact (admission_guard_reasons.1 scenarioQuiz true 0).2.2.2.1
      (by decide) (by decide) (by decide) rfl
  · exact (admission_guard_reasons.2.1 "FUTURE"
      [{ id := 6, quiz_code := "FUTURE", is_active := true, start_time := some 5000,
         end_time := none, duration_minutes := 30, created_at := 0 }] [] 7 0
      { id := 6, quiz_code := "FUTURE", is_active := true, start_time := some 5000,
        end_time := none, duration_minutes := 30, created_at := 0 }
      (by decide) (by decide)).1 (by decide)
  · exact (admission_guard_reasons.2.1 "CLOSED"
      [{ id := 8, quiz_code := "CLOSED", is_active := true, start_time := none,
         end_time := some 1000, duration_minutes := 30, created_at := 0 }] [] 7 2000
      { id := 8, quiz_code := "CLOSED", is_active := true, start_time := none,
        end_time := some 1000, duration_minutes := 30, created_at := 0 }
      (by decide) (by decide)).2.1 (by decide) (by decide)
  · exact (admission_guard_reasons.2.1 "ABC123" [scenarioQuiz]
      [initializeAttempt 1 9 0 scenarioQuestions] 9 0 scenarioQuiz
      (by decide) (by decide)).2.2.1 (by decide) (by decide) (by decide)
  · exact (admission_guard_reasons.2.1 "ABC123" [scenarioQuiz] [] 9 0 scenarioQuiz
      (by decide) (by decide)).2.2.2 (by decide) (by decide) (by decide)
  · exact admission_guard_reasons.2.2 "QUIZAA" _ [] 7 0 (by decide) (by decide)

/-- C6: reaching zero on the countdown while the attempt is not completed
and no submission is in flight triggers exactly one submission (the
in-flight flag is raised); a second invocation while the flag is up is a
no-op, ticks after completion are no-ops, and along every event
interleaving at most one submission write occurs, with the sequence
tick-then-success achieving exactly one. -/
theorem timer_single_submit :
    (∀ (durationMinutes : Nat) (evs : List QuizEv),
        (runEvents (initTimerState durationMinutes) evs).submitWrites ≤ 1)
    ∧ (∀ s : TimerState, s.timeLeft = 0 → s.completed = false → s.submitting = false →
        tickEffect s = { s with submitting := true })
    ∧ (∀ s : TimerState, s.submitting = true → invokeSubmit s = s)
    ∧ (∀ s : TimerState, s.completed = true → tickEffect s = s)
    ∧ (runEvents (initTimerState 0) [QuizEv.tick, QuizEv.submitOk]).submitWrites = 1 := by
  refine ⟨?_, ?_, ?_, ?_, by decide⟩
  · intro durationMinutes evs
    exact (timerInv_runEvents evs (initTimerState durationMinutes)
      (timerInv_init durationMinutes)).1
  · intro s h0 hc hs
    unfold tickEffect invokeSubmit
    rw [if_neg (by simp [hc]), if_neg (by omega), if_neg (by simp [hc]),
      if_neg (by simp [hs])]
  · intro s hs
    unfold invokeSubmit
    by_cases hc : s.completed = true
    · rw [if_pos hc]
    · rw [if_neg hc, if_pos hs]
  · intro s hc
    unfold tickEffect
    rw [if_pos hc]

/-- Witness for C6: the expiry tick at zero raises the flag, a racing manual
invocation with the flag up changes nothing, and a full run stays at one
write at most. -/
theorem timer_single_submit_witness :
    tickEffect { timeLeft := 0, submitting := false, completed := false, submitWrites := 0 }
        = { timeLeft := 0, submitting := true, completed := false, submitWrites := 0 }
    ∧ invokeSubmit { timeLeft := 0, submitting := true, completed := false, submitWrites := 0 }
        = { timeLeft := 0, submitting := true, completed := false, submitWrites := 0 }
    ∧ (runEvents (initTimerState 30)
        [QuizEv.tick, QuizEv.manualSubmit, QuizEv.submitOk, QuizEv.tick]).submitWrites ≤ 1 := by
  refine ⟨?_, ?_, ?_⟩
  · exact (timer_single_submit.2.1 _ rfl rfl rfl).trans (by decide)
  · exact timer_single_submit.2.2.1 _ rfl
  · exact timer_single_submit.1 30 _

/-- C7: Initialize creates an incomplete attempt with score 0, and an
immediate Submit with no recorded answers persists score 0, marks the
attempt completed and inserts no student_answers rows. -/
theorem empty_submit_spec
    (quiz : Quiz) (nowMs : Nat) (questions : List Question)
    (fetchCorrect : Nat → Option String) (quizId studentId startMs : Nat)
    (hq : 0 < questions.length) :
    (initializeAttempt quizId studentId startMs questions).score = 0
    ∧ (initializeAttempt quizId studentId startMs questions).is_completed = false
    ∧ (handleSubmitQuiz quiz nowMs questions [] fetchCorrect).finalScore = 0
    ∧ (handleSubmitQuiz quiz nowMs questions [] fetchCorrect).is_completed = true
    ∧ (handleSubmitQuiz quiz nowMs questions [] fetchCorrect).insertedRows = [] := by
  refine ⟨rfl, rfl, ?_, rfl, rfl⟩
  have hfs : (handleSubmitQuiz quiz nowMs questions [] fetchCorrect).finalScore
      = roundDiv (100 * 0) questions.length := rfl
  rw [hfs]
  simpa using roundDiv_zero_left questions.length hq

/-- Witness for C7 on the scenario quiz and questions. -/
theorem empty_submit_spec_witness :
    (handleSubmitQuiz scenarioQuiz 60000 scenarioQuestions [] scenarioFetch).finalScore = 0
    ∧ (handleSubmitQuiz scenarioQuiz 60000 scenarioQuestions [] scenarioFetch).is_completed
        = true := by
  have h := empty_submit_spec scenarioQuiz 60000 scenarioQuestions scenarioFetch 1 7 0
    (by decide)
  exact ⟨h.2.2.1, h.2.2.2.1⟩

/-- C8: the correctness judgment equals a comparison made after trimming
leading and trailing whitespace from both strings and lowering case (the
code lowers before trimming; the two orders agree), and the sample answer
with surrounding spaces matches. -/
theorem answer_comparison_spec :
    (∀ s c : String,
        answerIsCorrect s c = (jsToLower (jsTrim s) == jsToLower (jsTrim c)))
    ∧ answerIsCorrect " Paris " "paris" = true := by
  constructor
  · intro s c
    unfold answerIsCorrect
    rw [jsTrim_jsToLower, jsTrim_jsToLower]
  · decide

/-- C9: a username passes validation exactly when its length is between 3
and 20 and it matches the anchored character-class regex (these conditions
force it non-empty), with the short, long, empty and bad-character
rejections each carrying their own distinct outcome; ab is rejected as too
short and ab_12 is accepted. -/
theorem username_validation_spec :
    (∀ u : String,
        validateUsername u = UsernameCheck.accepted ↔
          (u ≠ "" ∧ 3 ≤ u.length ∧ u.length ≤ 20 ∧ usernameRegexTest u = true))
    ∧ validateUsername "ab" = UsernameCheck.tooShort
    ∧ validateUsername "ab_12" = UsernameCheck.accepted
    ∧ validateUsername "" = UsernameCheck.invalidEmpty
    ∧ validateUsername "abcdefghijklmnopqrstu" = UsernameCheck.tooLong
    ∧ validateUsername "ab!" = UsernameCheck.invalidChars := by
  refine ⟨?_, by decide, by decide, by decide, by decide, by decide⟩
  intro u
  constructor
  · intro h
    unfold validateUsername at h
    split_ifs at h with he hs hl hr
    refine ⟨fun hu => he ?_, by omega, by omega, by simpa using hr⟩
    rw [hu]
    rfl
  · rintro ⟨hne, h3, h20, hre⟩
    have hchars : ∀ c ∈ u.data, isUsernameChar c = true := by
      have hre2 := hre
      simp only [usernameRegexTest, Bool.and_eq_true, List.all_eq_true] at hre2
      exact fun c hc => hre2.2 c hc
    have htrim : jsTrim u = u := by
      show String.mk (trimList u.data) = u
      rw [trimList_eq_self u.data (fun c hc => isUsernameChar_not_ws c (hchars c hc))]
    unfold validateUsername
    rw [htrim, if_neg hne, if_neg (by omega), if_neg (by omega),
      if_neg (by simp [hre])]

/-- C10: a failed correct_answer fetch inside the scoring loop leaves the
submission successful and complete, leaves that answer's persisted
is_correct at false (the inserted row is false and no patch targets it) and
contributes nothing to the score: the score equals the correct count over
the remaining answers. -/
theorem fetch_failure_counts_incorrect
    (quiz : Quiz) (nowMs : Nat) (questions : List Question)
    (answers : List (Nat × String)) (fetchCorrect : Nat → Option String) (q : Nat)
    (hq : fetchCorrect q = none) :
    (handleSubmitQuiz quiz nowMs questions answers fetchCorrect).is_completed = true
    ∧ effectiveIsCorrect (handleSubmitQuiz quiz nowMs questions answers fetchCorrect) q
        = false
    ∧ (handleSubmitQuiz quiz nowMs questions answers fetchCorrect).score
        = correctCount fetchCorrect (answers.filter (fun qa => !(qa.1 == q)))
    ∧ (∀ r ∈ (handleSubmitQuiz quiz nowMs questions answers fetchCorrect).insertedRows,
        r.is_correct = false) := by
  refine ⟨rfl, ?_, ?_, ?_⟩
  · have hpatch : ∀ p ∈ (handleSubmitQuiz quiz nowMs questions answers
        fetchCorrect).patches, p.1 ≠ q := by
      have := foldl_scoreStep_patches fetchCorrect q hq answers 0 [] (by simp)
      exact fun p hp => this p hp
    unfold effectiveIsCorrect
    have hfind : (handleSubmitQuiz quiz nowMs questions answers
        fetchCorrect).patches.find? (fun p => p.1 == q) = none := by
      apply List.find?_eq_none.mpr
      intro p hp hcontra
      exact hpatch p hp (by simpa using hcontra)
    rw [hfind]
  · have hscore : (handleSubmitQuiz quiz nowMs questions answers fetchCorrect).score
        = correctCount fetchCorrect answers := by
      have := foldl_scoreStep_fst fetchCorrect answers 0 []
      simpa using this
    rw [hscore, correctCount_filter_ne fetchCorrect q hq answers]
  · intro r hr
    have : r ∈ answers.map (fun qa =>
        { question_id := qa.1, student_answer := qa.2, is_correct := false
          : StudentAnswerRow }) := hr
    rcases List.mem_map.mp this with ⟨qa, _, hqa⟩
    rw [← hqa]

/-- Witness for C10: the scenario answers scored against a store that fails
on question 13 still complete with the other two answers counted. -/
theorem fetch_failure_counts_incorrect_witness :
    (handleSubmitQuiz scenarioQuiz 0 scenarioQuestions scenarioAnswers
        (fun questionId => if questionId == 13 then none else scenarioFetch questionId)).score
      = 2
    ∧ effectiveIsCorrect
        (handleSubmitQuiz scenarioQuiz 0 scenarioQuestions scenarioAnswers
          (fun questionId => if questionId == 13 then none else scenarioFetch questionId)) 13
      = false := by
  have h := fetch_failure_counts_incorrect scenarioQuiz 0 scenarioQuestions scenarioAnswers
    (fun questionId => if questionId == 13 then none else scenarioFetch questionId) 13
    (by decide)
  exact ⟨h.2.2.1.trans (by decide), h.2.1⟩

end SnapQuiz
